import Mathlib

/-!
Verification of the voice-command pipeline of `src/app.py` (a Flask
inventory/finance backend).  The pipeline is shallowly embedded: Python
dict/JSON values become the inductive `Json`, the Supabase-backed tables
become the record `Store`, handlers become functions
`Store → Store × Except String ActionResult` (a raised Python exception is an
`Except.error` carrying the exception message, with the store state at the
raise point), and the external collaborators (the Gemini model call and
`json.loads`) are passed in as explicit arguments, exactly as the spec treats
them (opaque text-to-text and text-to-JSON functions).

Numbers are modelled as `Int`: every number any claim exercises is integral,
and Python's `int` arithmetic is exact on integers; IEEE-float behaviour is
deliberately out of scope (it could not be modelled faithfully by any exact
numeric type).
-/

/-- Python/JSON values as produced by `json.loads` and carried in entity bags. -/
inductive Json where
  | null
  | bool (b : Bool)
  | num (n : Int)
  | str (s : String)
  | arr (xs : List Json)
  | obj (kvs : List (String × Json))

/-- Python `x is None`. -/
def isNull : Json → Bool
  | .null => true
  | _ => false

/-- Python `x == s` for a string literal `s` (used on intent tags). -/
def jsonEqStr (j : Json) (s : String) : Bool :=
  match j with
  | .str t => t == s
  | _ => false

/-- First-occurrence lookup in a Python dict with a default:
`kvs.get(k, d)`.  A key present and bound to `None` yields `null`, not the
default, matching Python `dict.get`. -/
def dictGetD (kvs : List (String × Json)) (k : String) (d : Json) : Json :=
  (kvs.lookup k).getD d

/-- Python truthiness test (`if not x`). -/
def pyFalsy : Json → Bool
  | .null => true
  | .bool b => !b
  | .num n => n == 0
  | .str s => s == ""
  | .arr xs => xs.isEmpty
  | .obj kvs => kvs.isEmpty

/-- Does `pre` occur at the start of `s`? (kernel-reducible helper) -/
def listStartsWith : List Char → List Char → Bool
  | [], _ => true
  | _ :: _, [] => false
  | a :: as, b :: bs => a == b && listStartsWith as bs

/-- Does `needle` occur anywhere in `hay`? (kernel-reducible helper) -/
def listContains (hay needle : List Char) : Bool :=
  match hay with
  | [] => needle.isEmpty
  | _ :: t => listStartsWith needle hay || listContains t needle

/-- Substring test on strings. -/
def strContains (hay needle : String) : Bool :=
  listContains hay.data needle.data

/-- Prefix test on strings (kernel-reducible). -/
def strStartsWith (pre s : String) : Bool :=
  listStartsWith pre.data s.data

/-- Lower-casing, as the case-folding side of SQL `ilike`. -/
def strLower (s : String) : String :=
  ⟨s.data.map Char.toLower⟩

/-- The product-name lookup pattern `ilike('name', '%pat%')`:
case-insensitive substring match. -/
def containsCI (hay pat : String) : Bool :=
  strContains (strLower hay) (strLower pat)

/-- Decimal rendering of an integer. -/
def intStr (i : Int) : String :=
  if i < 0 then "-" ++ Nat.repr i.natAbs else Nat.repr i.natAbs

/-- Python `str()` of a number. -/
def pyNumStr (n : Int) : String := intStr n

/-- Python `str()` / f-string conversion of a value, as used in message
interpolation and in the `%{...}%` ilike pattern.  The container renderings
are placeholders, never exercised by the claims. -/
def pyStr : Json → String
  | .null => "None"
  | .bool true => "True"
  | .bool false => "False"
  | .num n => pyNumStr n
  | .str s => s
  | .arr _ => "[...]"
  | .obj _ => "\x7b...\x7d"

/-! ## Intent Parser (`VoiceProcessor.process_command_with_gemini`, app.py 171-220)

The Gemini call and `json.loads` are external collaborators; the outcome of
`model.generate_content(prompt).text` for this invocation is passed in as
`lm : Except String String` (`error` = the call raised, carrying the
exception message) and the JSON decoder as
`jloads : String → Except String Json` (`error` = `json.loads` raised).
The prompt construction (pure string templating with no branching) is
elided, since the model is opaque. -/

/-- Whitespace as recognized by Python `str.strip` (the common four). -/
def isPySpace (c : Char) : Bool :=
  c == ' ' || c == '\t' || c == '\n' || c == '\r'

/-- Python `str.strip()`. -/
def pyStrip (s : String) : String :=
  ⟨((s.data.dropWhile isPySpace).reverse.dropWhile isPySpace).reverse⟩

/-- Suffix test on strings (kernel-reducible). -/
def strEndsWith (post s : String) : Bool :=
  listStartsWith post.data.reverse s.data.reverse

/-- Response clean-up of app.py 204-210: strip whitespace, then an optional
leading markdown fence and an optional trailing fence. -/
def cleanResponse (raw : String) : String :=
  let t := pyStrip raw
  let t := if strStartsWith "```json" t then (⟨t.data.drop 7⟩ : String) else t
  let t := if strEndsWith "```" t then (⟨(t.data.reverse.drop 3).reverse⟩ : String) else t
  t

/-- The fallback command of app.py 215-220. -/
def fallbackCommand (errMsg : String) : Json :=
  .obj [("intent", .str "unknown"), ("confidence", .num 0), ("entities", .obj []),
        ("action", .str ("Failed to process command: " ++ errMsg))]

/-- app.py 171-220: parse a transcript into a command.  Any failure of the
model call or of JSON decoding degrades to `fallbackCommand`; the function is
total (never raises), matching the blanket `except` of line 214. -/
def process_command_with_gemini (jloads : String → Except String Json)
    (lm : Except String String) : Json :=
  match lm with
  | .error e => fallbackCommand e
  | .ok raw =>
    match jloads (cleanResponse raw) with
    | .ok parsed => parsed
    | .error e => fallbackCommand e

/-! ## Data model (schema of app.py 60-117, modulo the voice pipeline)

Record ids are modelled as `Nat`s drawn from the monotone counter
`Store.nextId`, so a smaller id means "created strictly earlier".  Column
types from the schema (`VARCHAR`/`TEXT`, `DECIMAL`/`INTEGER`) are enforced at
insert/update time by `asStr`/`asNum`: a value of the wrong shape makes the
store write raise, as the real Supabase client does. -/

structure Product where
  id : Nat
  user_id : Nat
  name : String
  description : String
  category : String
  unit_price : Int
  quantity : Int

structure Transaction where
  id : Nat
  user_id : Nat
  transaction_type : String
  amount : Int
  description : String
  category : String

structure Sale where
  id : Nat
  user_id : Nat
  transaction_id : Nat
  product_id : Nat
  quantity : Int
  unit_price : Int
  total_amount : Int
  customer_name : String

structure VoiceLog where
  id : Nat
  user_id : Nat
  original_text : String
  processed_command : Json
  action_taken : Option String
  confidence_score : Int

structure Store where
  nextId : Nat
  products : List Product
  transactions : List Transaction
  sales : List Sale
  voiceLogs : List VoiceLog

/-- Coercion of a dynamic value into a text column; a non-string raises. -/
def asStr : Json → Except String String
  | .str s => .ok s
  | _ => .error "invalid input value for text column"

/-- Coercion of a dynamic value into a numeric column; a non-number raises. -/
def asNum : Json → Except String Int
  | .num n => .ok n
  | _ => .error "invalid input value for numeric column"

/-- The result dict each action handler returns (app.py §4.2/§4.3).  The
optional extra payload keys (`product`, `sale`, `transaction`) are not
modelled; no claim inspects them. -/
structure ActionResult where
  success : Bool
  message : String

/-- Error message of Python `TypeError` on `x * y` with unsupported
operands (e.g. `None`); only the stable part of the runtime message is
modelled. -/
def jsonMulErr : String := "unsupported operand type(s) for *"

/-- Python `AttributeError` on `v.get(...)` for a non-dict `v`. -/
def attrErr : String := "object has no attribute get"

/-- The tenant-scoped product lookup shared by the handlers (app.py 417,
492, 511): the caller's own products whose name contains the pattern
case-insensitively, in table order. -/
def lookupProducts (st : Store) (user_id : Nat) (pat : String) : List Product :=
  st.products.filter (fun p => p.user_id == user_id && containsCI p.name pat)

/-! ## Action handlers (app.py 394-520)

A handler maps `(user_id, entities, store)` to the store after the call and
either a returned result (`Except.ok`) or a raised exception
(`Except.error`), with the store at the raise point — a raise after some
writes keeps those writes, as in the source.  The `entities.get(...)` calls
of each handler all precede its first store write, so the non-dict check is
hoisted to the top of each handler; the per-call `AttributeError` positions
are unchanged by this.  Every store insert succeeds (the `if result.data:`
checks of the source are kept, on the always-non-empty returned row list);
the one unfaithful corner is `jsonMul`, which raises on every non-number
operand and so does not model Python's `int * str` string repetition
(no claim exercises it). -/

/-- Python `*` on two dynamic values (app.py 424). -/
def jsonMul (a b : Json) : Except String Int :=
  match a, b with
  | .num x, .num y => .ok (x * y)
  | _, _ => .error jsonMulErr

/-- app.py 394-408: `add_product_from_voice`. -/
def add_product_from_voice (user_id : Nat) (entities : Json) (st : Store) :
    Store × Except String ActionResult :=
  match entities with
  | .obj kvs =>
    let nameJ := dictGetD kvs "product_name" (.str "Unknown Product")
    let descJ := dictGetD kvs "description" (.str "")
    let priceJ := dictGetD kvs "price" (.num 0)
    let qtyJ := dictGetD kvs "quantity" (.num 0)
    let catJ := dictGetD kvs "category" (.str "General")
    match asStr nameJ, asStr descJ, asNum priceJ, asNum qtyJ, asStr catJ with
    | .ok name, .ok desc, .ok price, .ok qty, .ok cat =>
      let p : Product :=
        { id := st.nextId, user_id := user_id, name := name, description := desc,
          category := cat, unit_price := price, quantity := qty }
      ({ st with nextId := st.nextId + 1, products := st.products ++ [p] },
       .ok ⟨true, "Added " ++ name ++ " to inventory"⟩)
    | .error e, _, _, _, _ => (st, .error e)
    | _, .error e, _, _, _ => (st, .error e)
    | _, _, .error e, _, _ => (st, .error e)
    | _, _, _, .error e, _ => (st, .error e)
    | _, _, _, _, .error e => (st, .error e)
  | _ => (st, .error attrErr)

/-- app.py 410-465: `record_sale_from_voice`. -/
def record_sale_from_voice (user_id : Nat) (entities : Json) (st : Store) :
    Store × Except String ActionResult :=
  match entities with
  | .obj kvs =>
    let product_name := dictGetD kvs "product_name" .null
    if pyFalsy product_name then (st, .ok ⟨false, "Product name not specified"⟩)
    else
      match lookupProducts st user_id (pyStr product_name) with
      | [] => (st, .ok ⟨false, "Product \"" ++ pyStr product_name ++ "\" not found"⟩)
      | product :: _ =>
        let quantity := dictGetD kvs "quantity" (.num 1)
        let unit_price := dictGetD kvs "price" (.num product.unit_price)
        match quantity, unit_price with
        | .num q, .num up =>
          let total_amount := q * up
          if product.quantity < q then
            (st, .ok ⟨false, "Insufficient stock. Available: " ++ pyNumStr product.quantity⟩)
          else
            let txn : Transaction :=
              { id := st.nextId, user_id := user_id, transaction_type := "sale",
                amount := total_amount,
                description := "Sale of " ++ pyNumStr q ++ " " ++ product.name,
                category := "Sales" }
            let st1 := { st with nextId := st.nextId + 1,
                                 transactions := st.transactions ++ [txn] }
            match asStr (dictGetD kvs "customer_name" (.str "Walk-in Customer")) with
            | .error e => (st1, .error e)
            | .ok customer_name =>
              let sale : Sale :=
                { id := st1.nextId, user_id := user_id, transaction_id := txn.id,
                  product_id := product.id, quantity := q, unit_price := up,
                  total_amount := total_amount, customer_name := customer_name }
              let st2 := { st1 with nextId := st1.nextId + 1,
                                    sales := st1.sales ++ [sale] }
              let new_quantity := product.quantity - q
              let updated := st2.products.map
                (fun x => if x.id == product.id then { x with quantity := new_quantity } else x)
              let st3 := { st2 with products := updated }
              (st3, .ok ⟨true, "Recorded sale of " ++ pyNumStr q ++ " " ++ product.name
                               ++ " for $" ++ pyNumStr total_amount⟩)
        | _, _ => (st, .error jsonMulErr)
  | _ => (st, .error attrErr)

/-- app.py 467-484: `record_expense_from_voice`. -/
def record_expense_from_voice (user_id : Nat) (entities : Json) (st : Store) :
    Store × Except String ActionResult :=
  match entities with
  | .obj kvs =>
    let amount := dictGetD kvs "amount" .null
    if pyFalsy amount then (st, .ok ⟨false, "Amount not specified"⟩)
    else
      match asNum amount,
            asStr (dictGetD kvs "description" (.str "Voice recorded expense")),
            asStr (dictGetD kvs "category" (.str "General Expense")) with
      | .ok a, .ok desc, .ok cat =>
        let txn : Transaction :=
          { id := st.nextId, user_id := user_id, transaction_type := "expense",
            amount := a, description := desc, category := cat }
        ({ st with nextId := st.nextId + 1, transactions := st.transactions ++ [txn] },
         .ok ⟨true, "Recorded expense of $" ++ pyStr amount⟩)
      | .error e, _, _ => (st, .error e)
      | _, .error e, _ => (st, .error e)
      | _, _, .error e => (st, .error e)
  | _ => (st, .error attrErr)

/-- app.py 486-501: `check_stock_from_voice` (read-only). -/
def check_stock_from_voice (user_id : Nat) (entities : Json) (st : Store) :
    Store × Except String ActionResult :=
  match entities with
  | .obj kvs =>
    let product_name := dictGetD kvs "product_name" .null
    if pyFalsy product_name then (st, .ok ⟨false, "Product name not specified"⟩)
    else
      match lookupProducts st user_id (pyStr product_name) with
      | [] => (st, .ok ⟨false, "Product \"" ++ pyStr product_name ++ "\" not found"⟩)
      | product :: _ =>
        (st, .ok ⟨true, product.name ++ ": " ++ pyNumStr product.quantity ++ " units in stock"⟩)
  | _ => (st, .error attrErr)

/-- app.py 503-520: `update_stock_from_voice` (absolute set, no validation of
the new value beyond the integer-column typing). -/
def update_stock_from_voice (user_id : Nat) (entities : Json) (st : Store) :
    Store × Except String ActionResult :=
  match entities with
  | .obj kvs =>
    let product_name := dictGetD kvs "product_name" .null
    let quantity := dictGetD kvs "quantity" .null
    if pyFalsy product_name || isNull quantity then
      (st, .ok ⟨false, "Product name and quantity required"⟩)
    else
      match lookupProducts st user_id (pyStr product_name) with
      | [] => (st, .ok ⟨false, "Product \"" ++ pyStr product_name ++ "\" not found"⟩)
      | product :: _ =>
        match asNum quantity with
        | .error e => (st, .error e)
        | .ok q =>
          let updated := st.products.map
            (fun x => if x.id == product.id then { x with quantity := q } else x)
          ({ st with products := updated },
           .ok ⟨true, "Updated " ++ product.name ++ " stock to " ++ pyStr quantity ++ " units"⟩)
  | _ => (st, .error attrErr)

/-! ## Command Dispatcher (app.py 373-392) -/

/-- The `try/except` around the handler call (app.py 378-392): a raised
exception becomes a failure result carrying the exception message. -/
def wrapResult : Store × Except String ActionResult → Store × Except String ActionResult
  | (st, .ok r) => (st, .ok r)
  | (st, .error e) => (st, .ok ⟨false, "Command execution failed: " ++ e⟩)

/-- app.py 373-392: `execute_voice_command`.  The two `command.get` calls sit
outside the `try`, so a non-dict command raises to the caller
(`Except.error`); for a dict the result is always `Except.ok`. -/
def execute_voice_command (user_id : Nat) (command : Json) (st : Store) :
    Store × Except String ActionResult :=
  match command with
  | .obj ckvs =>
    let intent := dictGetD ckvs "intent" .null
    let entities := dictGetD ckvs "entities" (.obj [])
    wrapResult
      (if jsonEqStr intent "add_product" then add_product_from_voice user_id entities st
       else if jsonEqStr intent "record_sale" then record_sale_from_voice user_id entities st
       else if jsonEqStr intent "record_expense" then record_expense_from_voice user_id entities st
       else if jsonEqStr intent "check_stock" then check_stock_from_voice user_id entities st
       else if jsonEqStr intent "update_stock" then update_stock_from_voice user_id entities st
       else (st, .ok ⟨false, "Unknown command intent"⟩))
  | _ => (st, .error attrErr)

/-! ## Voice upload flow (app.py 141-169, 324-371)

The filesystem is a list of existing paths; `audio_file.save` and
`audio.export` write a path, `os.remove` deletes it.  The external outcomes
are parameters: `conv` for the pydub load/export (app.py 148-150) and
`recog` for the Google speech recognition call (app.py 160-162). -/

/-- Replacement of the first-to-last occurrences of `old` (non-empty,
non-overlapping, left to right) — Python `str.replace`; fuel-structured so
the kernel can evaluate it.  Python's empty-`old` behaviour (interleaving) is
not modelled; it would only arise for an extensionless upload name. -/
def listReplaceAux : Nat → List Char → List Char → List Char → List Char
  | 0, s, _, _ => s
  | _ + 1, [], _, _ => []
  | fuel + 1, c :: t, old, new =>
    if listStartsWith old (c :: t) && !old.isEmpty then
      new ++ listReplaceAux fuel (t.drop (old.length - 1)) old new
    else
      c :: listReplaceAux fuel t old new

/-- Python `str.replace`. -/
def pyReplace (s old new : String) : String :=
  ⟨listReplaceAux s.data.length s.data old.data new.data⟩

/-- The extension part of `os.path.splitext`: the suffix from the last dot
of the final path component, or `""`.  (Leading-dot basenames, where Python
reports no extension, are not modelled; no claim exercises them.) -/
def splitextExt (s : String) : String :=
  let rev := s.data.reverse
  match rev.findIdx? (fun c => c == '.') with
  | none => ""
  | some i =>
    match rev.findIdx? (fun c => c == '/') with
    | some j => if i < j then (⟨(rev.take (i + 1)).reverse⟩ : String) else ""
    | none => (⟨(rev.take (i + 1)).reverse⟩ : String)

/-- Writing a file creates the path (or overwrites it in place). -/
def fsWrite (fs : List String) (p : String) : List String :=
  if fs.contains p then fs else fs ++ [p]

/-- Python `os.remove`. -/
def fsRemove (fs : List String) (p : String) : List String :=
  fs.filter (fun q => q ≠ p)

/-- app.py 145-153: `convert_audio_format`.  On a pydub failure
(`conv = .error e`) the wrapped exception is re-raised; on success the WAV
sibling of the input path is written and returned. -/
def convert_audio_format (fs : List String) (audio_file_path : String)
    (conv : Except String Unit) : List String × Except String String :=
  match conv with
  | .ok _ =>
    let wav_path := pyReplace audio_file_path (splitextExt audio_file_path) ".wav"
    (fsWrite fs wav_path, .ok wav_path)
  | .error e => (fs, .error ("Audio conversion failed: " ++ e))

/-- Outcome of `recognizer.recognize_google` (app.py 160-162): text, an
`sr.UnknownValueError`, or an `sr.RequestError`. -/
inductive RecogOutcome where
  | ok (text : String)
  | unknownValue
  | requestError (msg : String)

/-- app.py 155-169: `speech_to_text`.  A conversion failure is re-wrapped by
the generic `except` clause; the two recognizer failures get their own
messages. -/
def speech_to_text (fs : List String) (audio_file_path : String)
    (conv : Except String Unit) (recog : RecogOutcome) :
    List String × Except String String :=
  match convert_audio_format fs audio_file_path conv with
  | (fs', .error e) => (fs', .error ("Speech to text conversion failed: " ++ e))
  | (fs', .ok _wav) =>
    match recog with
    | .ok text => (fs', .ok text)
    | .unknownValue => (fs', .error "Could not understand audio")
    | .requestError m => (fs', .error ("Speech recognition service error: " ++ m))

/-- Response of the `/api/voice/upload` endpoint. -/
inductive UploadResp where
  | errJson (status : Nat) (error : String)
  | ok (original_text : String) (processed_command : Json) (action_result : ActionResult)

/-- app.py 324-371: `upload_voice`.  `audio` is the uploaded file's client
filename (`none` = no `audio` part in the request); `filename` is the
uuid-prefixed secured name the server stores it under (the uuid draw is a
parameter).  The inner `try/finally` removes the saved upload on every exit
path; the outer `except` turns any raised exception into a 500.  Note the
`json.dumps` serialization of the log row is elided — the log holds the
command value itself. -/
def upload_voice (current_user_id : Nat) (audio : Option String) (filename : String)
    (conv : Except String Unit) (recog : RecogOutcome)
    (jloads : String → Except String Json) (lm : Except String String)
    (st : Store) (fs : List String) : UploadResp × Store × List String :=
  match audio with
  | none => (.errJson 400 "No audio file provided", st, fs)
  | some clientName =>
    if clientName == "" then (.errJson 400 "No file selected", st, fs)
    else
      let file_path := "uploads/" ++ filename
      let fs1 := fsWrite fs file_path
      match speech_to_text fs1 file_path conv recog with
      | (fs2, .error e) => (.errJson 500 e, st, fsRemove fs2 file_path)
      | (fs2, .ok text) =>
        let processed_command := process_command_with_gemini jloads lm
        match processed_command with
        | .obj pkvs =>
          match asNum (dictGetD pkvs "confidence" (.num 0)) with
          | .error e => (.errJson 500 e, st, fsRemove fs2 file_path)
          | .ok conf =>
            let logRow : VoiceLog :=
              { id := st.nextId, user_id := current_user_id, original_text := text,
                processed_command := processed_command, action_taken := none,
                confidence_score := conf }
            let st1 := { st with nextId := st.nextId + 1,
                                 voiceLogs := st.voiceLogs ++ [logRow] }
            match execute_voice_command current_user_id processed_command st1 with
            | (st2, .ok action_result) =>
              (.ok text processed_command action_result, st2, fsRemove fs2 file_path)
            | (st2, .error e) => (.errJson 500 e, st2, fsRemove fs2 file_path)
        | _ =>
          -- `processed_command.get('confidence', 0.0)` raises on a non-dict
          (.errJson 500 attrErr, st, fsRemove fs2 file_path)

/-! ## Correction flow (app.py 890-929) -/

/-- Response of the `/api/voice/correct` endpoint. -/
inductive CorrectResp where
  | errJson (status : Nat) (error : String)
  | ok (message : String) (processed_command : Json) (action_result : ActionResult)

/-- The in-place log overwrite of app.py 909-917: the `update_data` applied
to every `voice_commands` row with the given id (the update is keyed by id
alone, as in the source). -/
def logOverwrite (st : Store) (cid : Nat) (t : String) (pc : Json) (conf : Int) : Store :=
  { st with voiceLogs := st.voiceLogs.map (fun l =>
      if l.id == cid then
        { l with original_text := t, processed_command := pc,
                 confidence_score := conf, action_taken := some "corrected" }
      else l) }

/-- app.py 890-929: `correct_voice_command`.  Looks up the caller's log row,
re-parses the corrected text, overwrites the row in place (text, command,
score, `action_taken = "corrected"`, keyed by id alone as in the source),
then dispatches the re-parsed command against the current store. -/
def correct_voice_command (current_user_id : Nat) (command_id : Option Nat)
    (corrected_text : Option String)
    (jloads : String → Except String Json) (lm : Except String String)
    (st : Store) : CorrectResp × Store :=
  match command_id, corrected_text with
  | some cid, some t =>
    if t == "" then (.errJson 400 "Command ID and corrected text are required", st)
    else
      match st.voiceLogs.filter (fun l => l.id == cid && l.user_id == current_user_id) with
      | [] => (.errJson 404 "Voice command not found", st)
      | _ :: _ =>
        let processed_command := process_command_with_gemini jloads lm
        match processed_command with
        | .obj pkvs =>
          match asNum (dictGetD pkvs "confidence" (.num 0)) with
          | .error e => (.errJson 500 e, st)
          | .ok conf =>
            let st1 := logOverwrite st cid t processed_command conf
            match execute_voice_command current_user_id processed_command st1 with
            | (st2, .ok action_result) =>
              (.ok "Command corrected and executed" processed_command action_result, st2)
            | (st2, .error e) => (.errJson 500 e, st2)
        | _ =>
          -- `processed_command.get('confidence', 0.0)` raises on a non-dict
          (.errJson 500 attrErr, st)
  | _, _ => (.errJson 400 "Command ID and corrected text are required", st)

/-! ## Statement-side observation helpers and sample data

These definitions exist only so the claim statements can speak about parsed
commands and concrete runs; they embed no source code of their own. -/

/-- The intent tag of a parsed command, when it is a dict with a string
intent. -/
def cmdIntent (j : Json) : Option String :=
  match j with
  | .obj kvs =>
    match dictGetD kvs "intent" .null with
    | .str s => some s
    | _ => none
  | _ => none

/-- The confidence of a parsed command, when it is a dict with a numeric
confidence. -/
def cmdConfidence (j : Json) : Option Int :=
  match j with
  | .obj kvs =>
    match dictGetD kvs "confidence" .null with
    | .num n => some n
    | _ => none
  | _ => none

/-- The closed set of six intent tags named by the spec. -/
def recognizedIntents : List String :=
  ["add_product", "record_sale", "record_expense", "check_stock", "update_stock", "unknown"]

/-- The Transaction row the sale path inserts (app.py 431-438). -/
def saleTxn (st : Store) (user_id : Nat) (q up : Int) (product : Product) : Transaction :=
  { id := st.nextId, user_id := user_id, transaction_type := "sale", amount := q * up,
    description := "Sale of " ++ pyNumStr q ++ " " ++ product.name, category := "Sales" }

/-- The Sale row the sale path inserts next (app.py 444-453). -/
def saleRow (st : Store) (user_id : Nat) (q up : Int) (product : Product)
    (cname : String) : Sale :=
  { id := st.nextId + 1, user_id := user_id, transaction_id := st.nextId,
    product_id := product.id, quantity := q, unit_price := up, total_amount := q * up,
    customer_name := cname }

/-- The intent-to-handler mapping of the dispatch chain (app.py 379-390),
as a partial lookup: `none` means the intent falls through to the
"Unknown command intent" arm. -/
def selectHandler (intent : Json) :
    Option (Nat → Json → Store → Store × Except String ActionResult) :=
  if jsonEqStr intent "add_product" then some add_product_from_voice
  else if jsonEqStr intent "record_sale" then some record_sale_from_voice
  else if jsonEqStr intent "record_expense" then some record_expense_from_voice
  else if jsonEqStr intent "check_stock" then some check_stock_from_voice
  else if jsonEqStr intent "update_stock" then some update_stock_from_voice
  else none

/-- Every product's stored quantity is non-negative. -/
def productsNonneg (st : Store) : Prop :=
  ∀ p ∈ st.products, 0 ≤ p.quantity

/-- Sample data used by the concrete witnesses and counterexamples below. -/
def productIphone10 : Product :=
  { id := 1, user_id := 1, name := "iPhone 15", description := "",
    category := "General", unit_price := 800, quantity := 10 }

def storeIphone10 : Store :=
  { nextId := 2, products := [productIphone10],
    transactions := [], sales := [], voiceLogs := [] }

def productIphone1 : Product :=
  { id := 1, user_id := 1, name := "iPhone 15", description := "",
    category := "General", unit_price := 800, quantity := 1 }

def storeIphone1 : Store := { storeIphone10 with products := [productIphone1] }

def productWidget : Product :=
  { id := 1, user_id := 1, name := "Widget", description := "",
    category := "General", unit_price := 25, quantity := 5 }

def storeWidget : Store :=
  { nextId := 2, products := [productWidget], transactions := [], sales := [], voiceLogs := [] }

def logRow5 : VoiceLog := ⟨5, 1, "old", .null, none, 0⟩

def storeWithLog : Store := { storeIphone10 with voiceLogs := [logRow5] }

def correctedRow5 : VoiceLog :=
  ⟨5, 1, "sell two iphones", fallbackCommand "LM down", some "corrected", 0⟩

/-! ## C3: Intent Parser fallback totality -/

/-- C3.  For every outcome of the model call and of JSON decoding, if the
call raised, or decoding the cleaned response raised (which covers an empty
body), the parser returns exactly the fallback command: intent `unknown`,
confidence `0.0`, empty entity bag, and an action string embedding the
failure reason.  That the parser never raises past its boundary is the type
of `process_command_with_gemini` itself: it is a total function into `Json`,
not into `Except`. -/
theorem gemini_fallback_totality (jloads : String → Except String Json)
    (lm : Except String String) (msg : String)
    (h : lm = .error msg ∨ ∃ raw, lm = .ok raw ∧ jloads (cleanResponse raw) = .error msg) :
    process_command_with_gemini jloads lm =
      .obj [("intent", .str "unknown"), ("confidence", .num 0), ("entities", .obj []),
            ("action", .str ("Failed to process command: " ++ msg))] := by
  rcases h with h | ⟨raw, h1, h2⟩
  · subst h; rfl
  · subst h1
    simp [process_command_with_gemini, h2, fallbackCommand]

/-- Witness for C3 at a concrete failing model call. -/
theorem gemini_fallback_totality_witness :
    process_command_with_gemini (fun _ => .error "Expecting value") (.error "503 quota exceeded") =
      .obj [("intent", .str "unknown"), ("confidence", .num 0), ("entities", .obj []),
            ("action", .str ("Failed to process command: " ++ "503 quota exceeded"))] :=
  gemini_fallback_totality (fun _ => .error "Expecting value") (.error "503 quota exceeded")
    "503 quota exceeded" (.inl rfl)

/-! ## C7: the parser does not validate successfully parsed JSON -/

/-- Counterexample to C7 as stated.  `json.loads` applied to the model
response text `\x7b"intent": "banana", "confidence": 2, "entities": \x7b\x7d,
"action": "peel"\x7d` returns exactly the object below; the parser hands it
downstream unchanged, with an intent outside the closed six-value set and a
confidence outside `[0, 1]` — no validation happens. -/
theorem parser_validation_cex :
    process_command_with_gemini
      (fun _ => .ok (.obj [("intent", .str "banana"), ("confidence", .num 2),
                           ("entities", .obj []), ("action", .str "peel")]))
      (.ok "irrelevant") =
      .obj [("intent", .str "banana"), ("confidence", .num 2),
            ("entities", .obj []), ("action", .str "peel")] ∧
    cmdIntent (.obj [("intent", .str "banana"), ("confidence", .num 2),
                     ("entities", .obj []), ("action", .str "peel")]) = some "banana" ∧
    recognizedIntents.contains "banana" = false ∧
    cmdConfidence (.obj [("intent", .str "banana"), ("confidence", .num 2),
                         ("entities", .obj []), ("action", .str "peel")]) = some 2 ∧
    ¬ ((0:Int) ≤ 2 ∧ (2:Int) ≤ 1) := by
  refine ⟨rfl, rfl, by decide, rfl, by decide⟩

/-- C7 (amended).  When JSON decoding of the cleaned model response
succeeds, the parser returns the decoded value unchanged: no validation of
the confidence interval or of the intent tag is performed before handing the
command downstream. -/
theorem parser_no_validation (jloads : String → Except String Json)
    (raw : String) (j : Json)
    (h : jloads (cleanResponse raw) = .ok j) :
    process_command_with_gemini jloads (.ok raw) = j := by
  simp [process_command_with_gemini, h]

/-- Witness for the amended C7. -/
theorem parser_no_validation_witness :
    process_command_with_gemini (fun _ => .ok (.str "not even a dict")) (.ok "x") =
      .str "not even a dict" :=
  parser_no_validation (fun _ => .ok (.str "not even a dict")) "x" (.str "not even a dict") rfl

/-! ## C10: a present-but-null price is not defaulted in RecordSale -/

/-- C10.  When the entity bag binds the key `price` to `None`, `dict.get`
returns `None` rather than the stored-unit-price default, the multiplication
`quantity * None` raises before any store write, and the dispatcher converts
the fault into a failure result; the store is unchanged. -/
theorem null_price_not_defaulted (user_id : Nat) (st : Store)
    (ckvs ekvs : List (String × Json)) (pn : String) (product : Product) (rest : List Product)
    (hintent : dictGetD ckvs "intent" .null = .str "record_sale")
    (hent : dictGetD ckvs "entities" (.obj []) = .obj ekvs)
    (hname : dictGetD ekvs "product_name" .null = .str pn)
    (hpn : pn ≠ "")
    (hmatch : lookupProducts st user_id (pyStr (.str pn)) = product :: rest)
    (hprice : ekvs.lookup "price" = some .null) :
    execute_voice_command user_id (.obj ckvs) st =
      (st, .ok ⟨false, "Command execution failed: " ++ jsonMulErr⟩) := by
  have hup : dictGetD ekvs "price" (.num product.unit_price) = .null := by
    simp [dictGetD, hprice]
  have hfal : pyFalsy (.str pn) = false := by simp [pyFalsy, hpn]
  simp only [execute_voice_command, hintent, hent, jsonEqStr]
  norm_num
  simp only [record_sale_from_voice, hname, hfal, hmatch, hup, Bool.false_eq_true,
    if_false]
  rcases hq : dictGetD ekvs "quantity" (.num 1) <;> simp [wrapResult]

/-- Witness for C10 at a concrete store and command. -/
theorem null_price_not_defaulted_witness :
    execute_voice_command 1
      (.obj [("intent", .str "record_sale"),
             ("entities", .obj [("product_name", .str "iPhone"), ("quantity", .num 5),
                                ("price", .null)])])
      storeIphone10 =
      (storeIphone10, .ok ⟨false, "Command execution failed: " ++ jsonMulErr⟩) :=
  null_price_not_defaulted 1 storeIphone10 _ _ "iPhone" productIphone10 []
    rfl rfl rfl (by decide) rfl rfl

/-! ## C2: insufficient-stock handling -/

/-- Counterexample to C2 as stated.  The entity bag matches the product
(stock 1) and requests quantity 5, so the stored quantity is strictly below
the requested one; but because the bag also binds `price` to `None`, the
`total_amount` multiplication (app.py 424) raises *before* the stock check
(app.py 427), and the failure message does not contain
"Insufficient stock".  (No mutation still occurs.) -/
theorem insufficient_stock_message_cex :
    execute_voice_command 1
      (.obj [("intent", .str "record_sale"),
             ("entities", .obj [("product_name", .str "iPhone"), ("quantity", .num 5),
                                ("price", .null)])])
      storeIphone1 =
      (storeIphone1, .ok ⟨false, "Command execution failed: " ++ jsonMulErr⟩) ∧
    lookupProducts storeIphone1 1 "iPhone" = [productIphone1] ∧
    productIphone1.quantity < 5 ∧
    strContains ("Command execution failed: " ++ jsonMulErr) "Insufficient stock" = false := by
  refine ⟨rfl, rfl, by decide, by rfl⟩

theorem listStartsWith_self (l : List Char) : listStartsWith l l = true := by
  induction l with
  | nil => rfl
  | cons c t ih => simp [listStartsWith, ih]

theorem listContains_suffix (hay needle : List Char) :
    listContains (hay ++ needle) needle = true := by
  induction hay with
  | nil =>
    cases needle with
    | nil => rfl
    | cons c t => simp [listContains, listStartsWith_self]
  | cons c t ih => simp [listContains, ih]

/-- A string contains its own suffix. -/
theorem strContains_suffix (pre post : String) : strContains (pre ++ post) post = true := by
  have h : (pre ++ post).data = pre.data ++ post.data := rfl
  simp only [strContains, h]
  exact listContains_suffix pre.data post.data

/-- C2 (amended).  Provided the requested quantity and the resolved unit
price are numbers (so the `total_amount` computation on app.py 424 does not
itself raise — the key `price` bound to `None` is the exception, settled by
C10), a matched product whose stored quantity is strictly below the
requested quantity makes `record_sale_from_voice` return a failure result
whose message contains "Insufficient stock" and also contains the available
quantity, with the store completely unchanged: no Transaction, no Sale, no
stock change. -/
theorem insufficient_stock_atomicity (user_id : Nat) (st : Store)
    (kvs : List (String × Json)) (pn : String) (product : Product) (rest : List Product)
    (q up : Int)
    (hname : dictGetD kvs "product_name" .null = .str pn)
    (hpn : pn ≠ "")
    (hmatch : lookupProducts st user_id (pyStr (.str pn)) = product :: rest)
    (hq : dictGetD kvs "quantity" (.num 1) = .num q)
    (hup : dictGetD kvs "price" (.num product.unit_price) = .num up)
    (hstock : product.quantity < q) :
    record_sale_from_voice user_id (.obj kvs) st =
      (st, .ok ⟨false, "Insufficient stock. Available: " ++ pyNumStr product.quantity⟩) ∧
    strContains ("Insufficient stock. Available: " ++ pyNumStr product.quantity)
      "Insufficient stock" = true ∧
    strContains ("Insufficient stock. Available: " ++ pyNumStr product.quantity)
      (pyNumStr product.quantity) = true := by
  have hfal : pyFalsy (.str pn) = false := by simp [pyFalsy, hpn]
  refine ⟨?_, ?_, strContains_suffix "Insufficient stock. Available: " (pyNumStr product.quantity)⟩
  · simp only [record_sale_from_voice, hname, hfal, hmatch, hq, hup, Bool.false_eq_true,
      if_false]
    rw [if_pos hstock]
  · simp [strContains, listContains, listStartsWith]

/-- Witness for the amended C2: stock 1, requested quantity 5. -/
theorem insufficient_stock_atomicity_witness :
    record_sale_from_voice 1
      (.obj [("product_name", .str "iPhone"), ("quantity", .num 5)]) storeIphone1 =
      (storeIphone1, .ok ⟨false, "Insufficient stock. Available: " ++ pyNumStr productIphone1.quantity⟩) ∧
    strContains ("Insufficient stock. Available: " ++ pyNumStr productIphone1.quantity)
      "Insufficient stock" = true ∧
    strContains ("Insufficient stock. Available: " ++ pyNumStr productIphone1.quantity)
      (pyNumStr productIphone1.quantity) = true :=
  insufficient_stock_atomicity 1 storeIphone1 _ "iPhone" productIphone1 [] 5 800
    rfl (by decide) rfl rfl rfl (by decide)

/-! ## C1: RecordSale success postcondition -/

/-- C1.  On the success path (name matches, requested quantity `q` — default
1 — within stock), `record_sale_from_voice` succeeds with
`total_amount = q * up` (`up` the entity price if present, else the
product's stored unit price), appends exactly one `sale`-typed Transaction
of amount `q * up`, then exactly one Sale referencing that Transaction's id
with quantity `q` and total `q * up` — the Sale's id `st.nextId + 1` is
drawn strictly after the Transaction's id `st.nextId`, i.e. the Transaction
is created strictly before the Sale — and finally sets the matched product's
quantity to exactly `product.quantity - q`, leaving every other product row
unchanged. -/
theorem record_sale_success (user_id : Nat) (st : Store)
    (kvs : List (String × Json)) (pn : String) (product : Product) (rest : List Product)
    (q up : Int) (cname : String)
    (hname : dictGetD kvs "product_name" .null = .str pn)
    (hpn : pn ≠ "")
    (hmatch : lookupProducts st user_id (pyStr (.str pn)) = product :: rest)
    (hq : dictGetD kvs "quantity" (.num 1) = .num q)
    (hup : dictGetD kvs "price" (.num product.unit_price) = .num up)
    (hcust : asStr (dictGetD kvs "customer_name" (.str "Walk-in Customer")) = .ok cname)
    (hstock : q ≤ product.quantity) :
    record_sale_from_voice user_id (.obj kvs) st =
      ({ nextId := st.nextId + 2,
         products := st.products.map (fun x =>
           if x.id == product.id then { x with quantity := product.quantity - q } else x),
         transactions := st.transactions ++ [saleTxn st user_id q up product],
         sales := st.sales ++ [saleRow st user_id q up product cname],
         voiceLogs := st.voiceLogs },
       .ok ⟨true, "Recorded sale of " ++ pyNumStr q ++ " " ++ product.name
                  ++ " for $" ++ pyNumStr (q * up)⟩) ∧
    (saleTxn st user_id q up product).transaction_type = "sale" ∧
    (saleTxn st user_id q up product).amount = q * up ∧
    (saleRow st user_id q up product cname).transaction_id = (saleTxn st user_id q up product).id ∧
    (saleTxn st user_id q up product).id < (saleRow st user_id q up product cname).id ∧
    (saleRow st user_id q up product cname).quantity = q ∧
    (saleRow st user_id q up product cname).total_amount = q * up := by
  have hfal : pyFalsy (.str pn) = false := by simp [pyFalsy, hpn]
  refine ⟨?_, rfl, rfl, rfl, by simp [saleTxn, saleRow], rfl, rfl⟩
  simp only [record_sale_from_voice, hname, hfal, hmatch, hq, hup, hcust,
    Bool.false_eq_true, if_false]
  rw [if_neg (not_lt.mpr hstock)]
  rfl

/-- Witness for C1, at the spec's own example: stock 10, unit price 800,
requested quantity 2. -/
theorem record_sale_success_witness :
    record_sale_from_voice 1
      (.obj [("product_name", .str "iPhone"), ("quantity", .num 2)]) storeIphone10 =
      ({ nextId := 4,
         products := [{ productIphone10 with quantity := 8 }],
         transactions := [saleTxn storeIphone10 1 2 800 productIphone10],
         sales := [saleRow storeIphone10 1 2 800 productIphone10 "Walk-in Customer"],
         voiceLogs := [] },
       .ok ⟨true, "Recorded sale of 2 iPhone 15 for $1600"⟩) ∧
    (saleTxn storeIphone10 1 2 800 productIphone10).transaction_type = "sale" ∧
    (saleTxn storeIphone10 1 2 800 productIphone10).amount = 2 * 800 ∧
    (saleRow storeIphone10 1 2 800 productIphone10 "Walk-in Customer").transaction_id =
      (saleTxn storeIphone10 1 2 800 productIphone10).id ∧
    (saleTxn storeIphone10 1 2 800 productIphone10).id <
      (saleRow storeIphone10 1 2 800 productIphone10 "Walk-in Customer").id ∧
    (saleRow storeIphone10 1 2 800 productIphone10 "Walk-in Customer").quantity = 2 ∧
    (saleRow storeIphone10 1 2 800 productIphone10 "Walk-in Customer").total_amount = 2 * 800 :=
  record_sale_success 1 storeIphone10 _ "iPhone" productIphone10 [] 2 800 "Walk-in Customer"
    rfl (by decide) rfl rfl rfl rfl (by decide)

/-! ## C6: UpdateStock contract -/

/-- Counterexample to C6 as stated.  The entity bag binds `product_name` to
the empty string — which *does* match the owner's product, since the
`ilike '%%'` substring lookup matches every name — and `quantity` to the
non-null value 7; yet the handler fails with the "required" message and
mutates nothing, because `if not product_name` (app.py 508) rejects every
falsy name, not only an absent one. -/
theorem update_stock_contract_cex :
    update_stock_from_voice 1 (.obj [("product_name", .str ""), ("quantity", .num 7)])
      storeWidget =
      (storeWidget, .ok ⟨false, "Product name and quantity required"⟩) ∧
    lookupProducts storeWidget 1 "" = [productWidget] ∧
    isNull (.num 7) = false := by
  exact ⟨rfl, rfl, rfl⟩

/-- C6 (amended).  If `product_name` is falsy (absent, null, or the empty
string) or `quantity` is null/absent, the handler fails with the "required"
message and mutates nothing; if `product_name` is a non-empty string
matching one of the owner's products and `quantity` is a non-null *number*
(zero and negative values included — no range validation; only the
integer-column typing of the store is enforced), the handler succeeds and
overwrites the matched product's quantity unconditionally with exactly the
given value — an absolute set, not a delta. -/
theorem update_stock_contract (user_id : Nat) (st : Store) (kvs : List (String × Json)) :
    (∀ _h : pyFalsy (dictGetD kvs "product_name" .null) = true ∨
           dictGetD kvs "quantity" .null = .null,
      update_stock_from_voice user_id (.obj kvs) st =
        (st, .ok ⟨false, "Product name and quantity required"⟩)) ∧
    (∀ pn product rest k,
      dictGetD kvs "product_name" .null = .str pn → pn ≠ "" →
      lookupProducts st user_id (pyStr (.str pn)) = product :: rest →
      dictGetD kvs "quantity" .null = .num k →
      update_stock_from_voice user_id (.obj kvs) st =
        ({ st with products := st.products.map (fun x =>
             if x.id == product.id then { x with quantity := k } else x) },
         .ok ⟨true, "Updated " ++ product.name ++ " stock to " ++ pyNumStr k ++ " units"⟩)) := by
  constructor
  · intro h
    rcases h with h | h
    · simp only [update_stock_from_voice, h, Bool.true_or, if_true]
    · simp only [update_stock_from_voice, h]
      simp [isNull]
  · intro pn product rest k hname hpn hmatch hk
    have hfal : pyFalsy (.str pn) = false := by simp [pyFalsy, hpn]
    simp only [update_stock_from_voice, hname, hk, hfal, hmatch, isNull,
      Bool.false_or, Bool.false_eq_true, if_false]
    rfl

/-- Witness for the amended C6, at the spec's own example: quantity 0 is
accepted and stored absolutely (and a bag with a null quantity is
rejected). -/
theorem update_stock_contract_witness :
    update_stock_from_voice 1 (.obj [("product_name", .str "Widget"), ("quantity", .num 0)])
      storeWidget =
      ({ storeWidget with products := storeWidget.products.map (fun x =>
           if x.id == productWidget.id then { x with quantity := 0 } else x) },
       .ok ⟨true, "Updated Widget stock to 0 units"⟩) ∧
    update_stock_from_voice 1 (.obj [("product_name", .str "Widget"), ("quantity", .null)])
      storeWidget =
      (storeWidget, .ok ⟨false, "Product name and quantity required"⟩) := by
  constructor
  · exact (update_stock_contract 1 storeWidget
      [("product_name", .str "Widget"), ("quantity", .num 0)]).2
      "Widget" productWidget [] 0 rfl (by decide) rfl rfl
  · exact (update_stock_contract 1 storeWidget
      [("product_name", .str "Widget"), ("quantity", .null)]).1 (.inr rfl)

/-! ## C4: dispatcher totality -/

theorem execute_via_selectHandler (user_id : Nat) (ckvs : List (String × Json)) (st : Store) :
    execute_voice_command user_id (.obj ckvs) st =
      wrapResult
        (match selectHandler (dictGetD ckvs "intent" .null) with
         | some h => h user_id (dictGetD ckvs "entities" (.obj [])) st
         | none => (st, .ok ⟨false, "Unknown command intent"⟩)) := by
  simp only [execute_voice_command, selectHandler]
  split_ifs <;> rfl

theorem wrapResult_always_ok (x : Store × Except String ActionResult) :
    ∃ st2 r, wrapResult x = (st2, .ok r) := by
  rcases x with ⟨st2, r⟩
  cases r <;> exact ⟨_, _, rfl⟩

/-- C4.  Dispatch is total on commands: for every owner id, command dict and
store, (i) the dispatcher returns an `ok` ActionResult (never a raised
fault); (ii) an intent outside the five recognized tags — `unknown`
included — yields exactly `{success: false, message: "Unknown command
intent"}` with the store untouched; (iii) an exception raised inside the
selected handler is caught and converted to `{success: false, message:
"Command execution failed: <reason>"}` carrying the exception's message
(and keeping whatever store state the handler left behind). -/
theorem dispatch_totality (user_id : Nat) (ckvs : List (String × Json)) (st : Store) :
    (∃ st2 r, execute_voice_command user_id (.obj ckvs) st = (st2, .ok r)) ∧
    (selectHandler (dictGetD ckvs "intent" .null) = none →
      execute_voice_command user_id (.obj ckvs) st =
        (st, .ok ⟨false, "Unknown command intent"⟩)) ∧
    (∀ h st' e, selectHandler (dictGetD ckvs "intent" .null) = some h →
      h user_id (dictGetD ckvs "entities" (.obj [])) st = (st', .error e) →
      execute_voice_command user_id (.obj ckvs) st =
        (st', .ok ⟨false, "Command execution failed: " ++ e⟩)) := by
  refine ⟨?_, ?_, ?_⟩
  · rw [execute_via_selectHandler]
    exact wrapResult_always_ok _
  · intro hnone
    rw [execute_via_selectHandler, hnone]
    rfl
  · intro h st' e hsel hrun
    rw [execute_via_selectHandler, hsel]
    simp only [hrun, wrapResult]

/-- Witness for C4: the bogus intent of the spec's example yields exactly
the unknown-command failure with no store change, and a null-entities
record_sale command (whose handler raises `AttributeError` on
`entities.get`) is converted to the wrapped failure message. -/
theorem dispatch_totality_witness :
    execute_voice_command 1 (.obj [("intent", .str "bogus")]) storeIphone10 =
      (storeIphone10, .ok ⟨false, "Unknown command intent"⟩) ∧
    execute_voice_command 1 (.obj [("intent", .str "record_sale"), ("entities", .null)])
      storeIphone10 =
      (storeIphone10, .ok ⟨false, "Command execution failed: " ++ attrErr⟩) := by
  constructor
  · exact (dispatch_totality 1 [("intent", .str "bogus")] storeIphone10).2.1 rfl
  · exact (dispatch_totality 1 [("intent", .str "record_sale"), ("entities", .null)]
      storeIphone10).2.2 record_sale_from_voice storeIphone10 attrErr rfl rfl

/-! ## C5: non-negative stock -/

/-- Counterexample to C5 as stated: from a store in which every quantity is
non-negative, a single dispatched `update_stock` command with quantity -5
drives the matched product's quantity to -5 (the handler has no validation
and sets the value absolutely; `add_product` accepts negative quantities the
same way). -/
theorem nonneg_stock_cex :
    productsNonneg storeIphone10 ∧
    execute_voice_command 1
      (.obj [("intent", .str "update_stock"),
             ("entities", .obj [("product_name", .str "iPhone"), ("quantity", .num (-5))])])
      storeIphone10 =
      ({ storeIphone10 with products := [{ productIphone10 with quantity := -5 }] },
       .ok ⟨true, "Updated iPhone 15 stock to -5 units"⟩) ∧
    ({ productIphone10 with quantity := -5 } : Product).quantity < 0 := by
  refine ⟨?_, rfl, by decide⟩
  intro p hp
  simp only [storeIphone10, List.mem_singleton] at hp
  subst hp
  decide

theorem wrapResult_fst (x : Store × Except String ActionResult) :
    (wrapResult x).1 = x.1 := by
  rcases x with ⟨st, r⟩
  cases r <;> rfl

theorem check_stock_fst (user_id : Nat) (entities : Json) (st : Store) :
    (check_stock_from_voice user_id entities st).1 = st := by
  cases entities <;> simp only [check_stock_from_voice]
  split
  · rfl
  · split <;> rfl

theorem record_expense_products (user_id : Nat) (entities : Json) (st : Store) :
    (record_expense_from_voice user_id entities st).1.products = st.products := by
  cases entities <;> simp only [record_expense_from_voice]
  split
  · rfl
  · split <;> rfl

theorem record_sale_preserves_nonneg (user_id : Nat) (entities : Json) (st : Store)
    (hnn : productsNonneg st) :
    productsNonneg (record_sale_from_voice user_id entities st).1 := by
  cases entities <;> try exact hnn
  rename_i kvs
  simp only [record_sale_from_voice]
  by_cases hfal : pyFalsy (dictGetD kvs "product_name" .null)
  · simp only [hfal, if_true]
    exact hnn
  · simp only [hfal, Bool.false_eq_true, if_false]
    cases hl : lookupProducts st user_id (pyStr (dictGetD kvs "product_name" .null)) with
    | nil => exact hnn
    | cons product restp =>
      dsimp only
      cases hq : dictGetD kvs "quantity" (.num 1) <;> try exact hnn
      rename_i q
      cases hup : dictGetD kvs "price" (.num product.unit_price) <;> try exact hnn
      rename_i up
      dsimp only
      by_cases hstock : product.quantity < q
      · rw [if_pos hstock]
        exact hnn
      · rw [if_neg hstock]
        cases hc : asStr (dictGetD kvs "customer_name" (.str "Walk-in Customer")) with
        | error e => exact hnn
        | ok cname =>
          intro p hp
          simp only [List.mem_map] at hp
          obtain ⟨x, hx, rfl⟩ := hp
          by_cases hid : (x.id == product.id) = true
          · rw [if_pos hid]
            dsimp only
            omega
          · rw [if_neg hid]
            exact hnn x hx

/-- C5 (amended).  Dispatching a single command whose intent is neither
`add_product` nor `update_stock` preserves non-negativity of every product
quantity.  (The claim as stated fails: `update_stock` overwrites the
quantity with any supplied number, negative included, and `add_product`
inserts entity-supplied quantities unvalidated — see the counterexample;
the sale path itself can never drive a quantity negative, because the
decrement only runs under `¬(quantity < requested)`.) -/
theorem nonneg_stock_preserved (user_id : Nat) (ckvs : List (String × Json)) (st : Store)
    (hnn : productsNonneg st)
    (h1 : jsonEqStr (dictGetD ckvs "intent" .null) "add_product" = false)
    (h2 : jsonEqStr (dictGetD ckvs "intent" .null) "update_stock" = false) :
    productsNonneg (execute_voice_command user_id (.obj ckvs) st).1 := by
  rw [execute_via_selectHandler, wrapResult_fst]
  simp only [selectHandler, h1, h2, Bool.false_eq_true, if_false]
  split_ifs with hrs hre hcs
  · exact record_sale_preserves_nonneg user_id _ st hnn
  · intro p hp
    rw [record_expense_products] at hp
    exact hnn p hp
  · rw [check_stock_fst]
    exact hnn
  · exact hnn

/-- Witness for the amended C5 at a concrete sale dispatch. -/
theorem nonneg_stock_preserved_witness :
    productsNonneg (execute_voice_command 1
      (.obj [("intent", .str "record_sale"),
             ("entities", .obj [("product_name", .str "iPhone"), ("quantity", .num 2)])])
      storeIphone10).1 := by
  apply nonneg_stock_preserved 1
    [("intent", .str "record_sale"),
     ("entities", .obj [("product_name", .str "iPhone"), ("quantity", .num 2)])]
    storeIphone10 ?_ rfl rfl
  intro p hp
  simp only [storeIphone10, List.mem_singleton] at hp
  subst hp
  decide

/-! ## C8: correction flow -/

theorem add_product_voiceLogs (user_id : Nat) (entities : Json) (st : Store) :
    (add_product_from_voice user_id entities st).1.voiceLogs = st.voiceLogs := by
  cases entities <;> try rfl
  simp only [add_product_from_voice]
  split <;> rfl

theorem record_sale_voiceLogs (user_id : Nat) (entities : Json) (st : Store) :
    (record_sale_from_voice user_id entities st).1.voiceLogs = st.voiceLogs := by
  cases entities <;> try rfl
  simp only [record_sale_from_voice]
  split
  · rfl
  · split
    · rfl
    · split
      · split
        · rfl
        · split <;> rfl
      · rfl

theorem record_expense_voiceLogs (user_id : Nat) (entities : Json) (st : Store) :
    (record_expense_from_voice user_id entities st).1.voiceLogs = st.voiceLogs := by
  cases entities <;> try rfl
  simp only [record_expense_from_voice]
  split
  · rfl
  · split <;> rfl

theorem update_stock_voiceLogs (user_id : Nat) (entities : Json) (st : Store) :
    (update_stock_from_voice user_id entities st).1.voiceLogs = st.voiceLogs := by
  cases entities <;> try rfl
  simp only [update_stock_from_voice]
  split
  · rfl
  · split
    · rfl
    · split <;> rfl

/-- No handler writes the command-history table: dispatch leaves
`voiceLogs` unchanged. -/
theorem execute_preserves_voiceLogs (user_id : Nat) (ckvs : List (String × Json)) (st : Store) :
    (execute_voice_command user_id (.obj ckvs) st).1.voiceLogs = st.voiceLogs := by
  rw [execute_via_selectHandler, wrapResult_fst]
  simp only [selectHandler]
  split_ifs
  · exact add_product_voiceLogs _ _ _
  · exact record_sale_voiceLogs _ _ _
  · exact record_expense_voiceLogs _ _ _
  · rw [check_stock_fst]
  · exact update_stock_voiceLogs _ _ _
  · rfl

/-- C8.  With a given command id and non-empty corrected text: when no log
row with that id belongs to the caller, the flow fails 404 "not found"
and mutates nothing; otherwise it re-parses the corrected text, overwrites
the matching log row in place (`original_text`, `processed_command`,
`confidence_score`, `action_taken = "corrected"`), then dispatches the
re-parsed command through the very same `execute_voice_command` as the
original submission path, returning that fresh ActionResult.  Nothing else
touches the store: the final state is exactly the dispatch applied to the
log-overwritten store (in particular no earlier side effect is reversed),
and the log table afterwards is exactly the overwritten one. -/
theorem correction_flow (current_user_id cid : Nat) (t : String)
    (jloads : String → Except String Json) (lm : Except String String) (st : Store)
    (ht : t ≠ "") :
    (st.voiceLogs.filter (fun l => l.id == cid && l.user_id == current_user_id) = [] →
      correct_voice_command current_user_id (some cid) (some t) jloads lm st =
        (.errJson 404 "Voice command not found", st)) ∧
    (∀ l ls pkvs conf st2 ar,
      st.voiceLogs.filter (fun l => l.id == cid && l.user_id == current_user_id) = l :: ls →
      process_command_with_gemini jloads lm = .obj pkvs →
      asNum (dictGetD pkvs "confidence" (.num 0)) = .ok conf →
      execute_voice_command current_user_id (.obj pkvs)
        (logOverwrite st cid t (.obj pkvs) conf) = (st2, .ok ar) →
      correct_voice_command current_user_id (some cid) (some t) jloads lm st =
        (.ok "Command corrected and executed" (.obj pkvs) ar, st2) ∧
      st2.voiceLogs = (logOverwrite st cid t (.obj pkvs) conf).voiceLogs) := by
  have htb : (t == "") = false := beq_eq_false_iff_ne.mpr ht
  constructor
  · intro hempty
    simp only [correct_voice_command, htb, Bool.false_eq_true, if_false, hempty]
  · intro l ls pkvs conf st2 ar hfound hpc hconf hexec
    constructor
    · simp only [correct_voice_command, htb, Bool.false_eq_true, if_false, hfound,
        hpc, hconf, hexec]
    · have := execute_preserves_voiceLogs current_user_id pkvs
        (logOverwrite st cid t (.obj pkvs) conf)
      rw [hexec] at this
      exact this

/-- Witness for C8: a concrete correction whose re-parse falls back to the
unknown command; the log row is overwritten in place and the fresh dispatch
result is returned. -/
theorem correction_flow_witness :
    correct_voice_command 1 (some 5) (some "sell two iphones")
      (fun _ => .error "Expecting value") (.error "LM down") storeWithLog =
      (.ok "Command corrected and executed" (fallbackCommand "LM down")
        ⟨false, "Unknown command intent"⟩,
       { storeWithLog with voiceLogs := [correctedRow5] }) ∧
    ({ storeWithLog with voiceLogs := [correctedRow5] } : Store).voiceLogs =
      (logOverwrite storeWithLog 5 "sell two iphones" (fallbackCommand "LM down") 0).voiceLogs :=
  (correction_flow 1 5 "sell two iphones" (fun _ => .error "Expecting value")
      (.error "LM down") storeWithLog (by decide)).2
    logRow5 []
    [("intent", .str "unknown"), ("confidence", .num 0), ("entities", .obj []),
     ("action", .str ("Failed to process command: " ++ "LM down"))]
    0 { storeWithLog with voiceLogs := [correctedRow5] }
    ⟨false, "Unknown command intent"⟩ rfl rfl rfl rfl

/-! ## C9: audio artifact cleanup -/

theorem fsRemove_self_not_mem (fs : List String) (p : String) : p ∉ fsRemove fs p := by
  simp [fsRemove]

/-- Counterexample to C9 as stated.  A full successful submission of an
`.mp3` upload: the request completes (here with the parser fallback and the
unknown-command result), the saved upload `uploads/u_a.mp3` is removed by
the `finally` block — but the WAV artifact `uploads/u_a.wav`, written by
`convert_audio_format` during this very submission (the filesystem started
empty), is still present when the handler returns.  Not every temporary
audio artifact is released. -/
theorem audio_cleanup_cex :
    (upload_voice 1 (some "a.mp3") "u_a.mp3" (.ok ()) (.ok "sell stuff")
      (fun _ => .error "Expecting value") (.error "LM down") storeIphone10 []).2.2 =
      ["uploads/u_a.wav"] ∧
    (upload_voice 1 (some "a.mp3") "u_a.mp3" (.ok ()) (.ok "sell stuff")
      (fun _ => .error "Expecting value") (.error "LM down") storeIphone10 []).1 =
      .ok "sell stuff" (fallbackCommand "LM down") ⟨false, "Unknown command intent"⟩ ∧
    "uploads/u_a.wav" ≠ "uploads/u_a.mp3" := by
  exact ⟨rfl, rfl, by decide⟩

/-- C9 (amended).  The *saved upload itself* is a scoped resource: whenever
the uploaded audio file is saved (an `audio` part is present with a
non-empty client filename), the `try/finally` removes the saved path before
the handler returns, on every exit path — transcription, parsing, store and
dispatch failures included.  The WAV conversion artifact, when its path
differs from the upload's, is *not* removed (see the counterexample). -/
theorem upload_file_cleanup (current_user_id : Nat) (clientName filename : String)
    (conv : Except String Unit) (recog : RecogOutcome)
    (jloads : String → Except String Json) (lm : Except String String)
    (st : Store) (fs : List String)
    (hcn : clientName ≠ "") :
    ("uploads/" ++ filename) ∉
      (upload_voice current_user_id (some clientName) filename conv recog jloads lm st fs).2.2 := by
  have hb : (clientName == "") = false := beq_eq_false_iff_ne.mpr hcn
  simp only [upload_voice, hb, Bool.false_eq_true, if_false]
  repeat' split
  all_goals exact fsRemove_self_not_mem _ _

/-- Witness for the amended C9, on a failing transcription. -/
theorem upload_file_cleanup_witness :
    ("uploads/" ++ "u_b.ogg") ∉
      (upload_voice 1 (some "b.ogg") "u_b.ogg" (.error "codec not found") .unknownValue
        (fun _ => .error "Expecting value") (.error "LM down") storeIphone10 []).2.2 :=
  upload_file_cleanup 1 "b.ogg" "u_b.ogg" (.error "codec not found") .unknownValue
    (fun _ => .error "Expecting value") (.error "LM down") storeIphone10 [] (by decide)
